import Mathlib

/-!
Verification of the service-registry lifecycle of `src/lib/registry.js`
(probe, announce, conflict resolution, teardown) as a shallow embedding.

Timers and asynchronous transport callbacks are modelled as explicit
events consumed by step functions; JavaScript `undefined` read as a
boolean is modelled as `false` (it is falsy); `dns-equal`'s
case-insensitive name comparison is modelled by lowercasing both sides.
-/

namespace Registry

/-- A resource record as the probe sees it: only the name is inspected
(`matchRR`, line 139-141 of registry.js). -/
structure PRecord where
  name : String
deriving DecidableEq, Repr

/-- A response packet: ordered answer and additional record sequences
(line 136). -/
structure Packet where
  answers : List PRecord
  additionals : List PRecord
deriving DecidableEq, Repr

/-- ASCII lowercase on a character code: the dns-equal package lowercases
exactly the characters A-Z (codes 65-90) before comparing. -/
def lowerCode (n : Nat) : Nat :=
  if 65 ≤ n ∧ n ≤ 90 then n + 32 else n

/-- A string as a sequence of ASCII-lowercased character codes. -/
def lowerCodes (s : String) : List Nat :=
  s.data.map (fun c => lowerCode c.toNat)

/-- Function `dnsEqual` from the dns-equal package: case-insensitive DNS name
equality (ASCII A-Z folded to a-z). -/
def dnsEqual (a b : String) : Bool :=
  lowerCodes a == lowerCodes b

/-- Function `matchRR` (lines 139-141): the record name dns-equals the service's
current fqdn. -/
def matchRR (fqdn : String) (rr : PRecord) : Bool :=
  dnsEqual rr.name fqdn

/-- Line 136: the packet's answers or additionals contain a matching
record. -/
def packetMatches (fqdn : String) (p : Packet) : Bool :=
  p.answers.any (matchRR fqdn) || p.additionals.any (matchRR fqdn)

/-- What the probe's single pending timer will invoke when it fires
(line 123: `++retries < 3 ? send : done`; line 113 schedules `send`). -/
inductive Pending where
  | toSend
  | toDone
deriving DecidableEq, Repr

/-- The mutable locals of one `probe` run (lines 107-148): the `sent`
flag, the retry counter, the pending timer, whether `onresponse` is
still attached, the value the completion callback was invoked with,
how many times it was invoked, and how many queries went out. -/
structure PCore where
  sent : Bool
  retries : Nat
  pending : Option Pending
  listening : Bool
  result : Option Bool
  cbCount : Nat
  queries : Nat
deriving DecidableEq, Repr

/-- Probe state right after `probe` is entered (lines 108-113): nothing
sent, listener attached, jitter timer pending on `send`. -/
def pInit : PCore :=
  { sent := false, retries := 0, pending := some Pending.toSend,
    listening := true, result := none, cbCount := 0, queries := 0 }

/-- Function `done` (lines 143-147): remove the listener, clear the timer, invoke
the callback once with `Boolean(exists)`. -/
def pDone (ex : Bool) (c : PCore) : PCore :=
  { c with listening := false, pending := none,
           result := some ex, cbCount := c.cbCount + 1 }

/-- Function `send` (lines 115-126): abort (without rescheduling) if the service
was stopped or destroyed; otherwise query, mark `sent`, bump `retries`,
and schedule `send` again while `retries < 3`, else schedule `done`. The
query completion callback is modelled as running with the query. -/
def pSend (activated destroyed : Bool) (c : PCore) : PCore :=
  if !activated || destroyed then { c with pending := none }
  else
    let r := c.retries + 1
    { c with sent := true, queries := c.queries + 1, retries := r,
             pending := some (if r < 3 then Pending.toSend else Pending.toDone) }

/-- An event delivered to a probe run: its pending timer fires, or a
response packet arrives on the shared transport. -/
inductive PEvent where
  | timer
  | response (p : Packet)
deriving DecidableEq, Repr

/-- One probe step: a firing timer runs whatever is pending (`send` or
`done`); a response runs `onresponse` (lines 128-137), which ignores the
packet unless the first transmission happened (`sent`), the listener is
attached, and a record matches the current fqdn. -/
def pStep (fqdn : String) (activated destroyed : Bool) (c : PCore) (e : PEvent) : PCore :=
  match e with
  | PEvent.timer =>
      match c.pending with
      | none => c
      | some Pending.toSend => pSend activated destroyed c
      | some Pending.toDone => pDone false c
  | PEvent.response p =>
      if c.listening && c.sent && packetMatches fqdn p then pDone true c else c

/-- A probe run over an event trace, for a service that stays activated
and not destroyed throughout (the not-aborted case). -/
def pRun (fqdn : String) (es : List PEvent) : PCore :=
  es.foldl (pStep fqdn true false) pInit

/-- The probe state after `t` timer firings (and any number of
non-matching responses) of a non-aborted run: the window is the jitter
timer plus three transmissions each followed by a 250 ms wait, so the
fourth firing finalizes with "not exists". -/
def pAfter : Nat → PCore
  | 0 => pInit
  | 1 => { sent := true, retries := 1, pending := some Pending.toSend,
           listening := true, result := none, cbCount := 0, queries := 1 }
  | 2 => { sent := true, retries := 2, pending := some Pending.toSend,
           listening := true, result := none, cbCount := 0, queries := 2 }
  | 3 => { sent := true, retries := 3, pending := some Pending.toDone,
           listening := true, result := none, cbCount := 0, queries := 3 }
  | _ + 4 => { sent := true, retries := 3, pending := none,
               listening := false, result := some false, cbCount := 1, queries := 3 }

/-- Number of timer events in a trace. -/
def countTimers (es : List PEvent) : Nat :=
  es.countP (fun e => e matches PEvent.timer)

theorem pStep_timer_pAfter (fqdn : String) (t : Nat) :
    pStep fqdn true false (pAfter t) PEvent.timer = pAfter (t + 1) := by
  match t with
  | 0 => rfl
  | 1 => rfl
  | 2 => rfl
  | 3 => rfl
  | n + 4 => rfl

theorem pStep_response_nonmatching (fqdn : String) (c : PCore) (p : Packet)
    (h : packetMatches fqdn p = false) :
    pStep fqdn true false c (PEvent.response p) = c := by
  simp [pStep, h]

theorem pRun_pAfter (fqdn : String) (es : List PEvent) (t : Nat)
    (h : ∀ p, PEvent.response p ∈ es → packetMatches fqdn p = false) :
    es.foldl (pStep fqdn true false) (pAfter t) = pAfter (t + countTimers es) := by
  induction es generalizing t with
  | nil => simp [countTimers]
  | cons e es ih =>
      match e with
      | PEvent.timer =>
          rw [List.foldl_cons, pStep_timer_pAfter]
          rw [ih (t + 1) (fun p hp => h p (List.mem_cons_of_mem _ hp))]
          have harith : t + 1 + countTimers es = t + countTimers (PEvent.timer :: es) := by
            simp only [countTimers, List.countP_cons]
            simp
            omega
          rw [harith]
      | PEvent.response p =>
          rw [List.foldl_cons,
              pStep_response_nonmatching fqdn _ p (h p (List.mem_cons_self _ _))]
          rw [ih t (fun q hq => h q (List.mem_cons_of_mem _ hq))]
          simp [countTimers, List.countP_cons]

theorem pStep_finalized (fqdn : String) (c : PCore) (e : PEvent)
    (hl : c.listening = false) (hp : c.pending = none) :
    pStep fqdn true false c e = c := by
  match e with
  | PEvent.timer => simp [pStep, hp]
  | PEvent.response p => simp [pStep, hl]

theorem pRun_finalized (fqdn : String) (c : PCore) (es : List PEvent)
    (hl : c.listening = false) (hp : c.pending = none) :
    es.foldl (pStep fqdn true false) c = c := by
  induction es with
  | nil => rfl
  | cons e es ih => rw [List.foldl_cons, pStep_finalized fqdn c e hl hp, ih]

/-- Decidable check that no response event in a trace matches the fqdn. -/
def noMatchIn (fqdn : String) (es : List PEvent) : Bool :=
  es.all (fun e =>
    match e with
    | PEvent.response p => !packetMatches fqdn p
    | PEvent.timer => true)

theorem noMatchIn_spec (fqdn : String) (es : List PEvent)
    (h : noMatchIn fqdn es = true) :
    ∀ q, PEvent.response q ∈ es → packetMatches fqdn q = false := by
  intro q hq
  have := List.all_eq_true.mp h _ hq
  simpa using this

/-- Claim C5: for a probe run that is not aborted: (a) a trace whose
responses never match the candidate fqdn and whose window elapses (the
jitter timer plus three transmissions each followed by their 250 ms
wait, i.e. four timer firings) finalizes with "not exists" and invokes
the callback exactly once; (b) a matching response arriving any time
from the first transmission onward (1 to 3 transmissions so far, not yet
finalized) finalizes immediately with "exists", callback invoked exactly
once, listener removed and timer cleared so remaining retries and waits
are short-circuited; (c) a finalized probe absorbs all further events,
so the callback can never fire a second time. -/
theorem probe_window_and_exists (fqdn : String) (es tail : List PEvent) (p : Packet)
    (hnm : ∀ q, PEvent.response q ∈ es → packetMatches fqdn q = false) :
    (countTimers es = 4 →
      (pRun fqdn es).result = some false ∧ (pRun fqdn es).cbCount = 1) ∧
    (1 ≤ countTimers es → countTimers es ≤ 3 → packetMatches fqdn p = true →
      let c := (pRun fqdn (es ++ [PEvent.response p] ++ tail));
      c.result = some true ∧ c.cbCount = 1 ∧ c.listening = false ∧ c.pending = none) := by
  have hbase : pRun fqdn es = pAfter (countTimers es) := by
    have := pRun_pAfter fqdn es 0 hnm
    simpa [pRun] using this
  constructor
  · intro h4
    rw [hbase, h4]
    exact ⟨rfl, rfl⟩
  · intro h1 h3 hm
    have hstep : pStep fqdn true false (pAfter (countTimers es)) (PEvent.response p)
        = pDone true (pAfter (countTimers es)) := by
      have hl : (pAfter (countTimers es)).listening = true := by
        interval_cases h : countTimers es <;> rfl
      have hs : (pAfter (countTimers es)).sent = true := by
        interval_cases h : countTimers es <;> rfl
      simp [pStep, hl, hs, hm]
    have hdone : ∀ t, 1 ≤ t → t ≤ 3 →
        (pDone true (pAfter t)).listening = false ∧ (pDone true (pAfter t)).pending = none ∧
        (pDone true (pAfter t)).result = some true ∧ (pDone true (pAfter t)).cbCount = 1 := by
      intro t ht1 ht3
      interval_cases t <;> exact ⟨rfl, rfl, rfl, rfl⟩
    obtain ⟨hLf, hPf, hRf, hCf⟩ := hdone (countTimers es) h1 h3
    have : pRun fqdn (es ++ [PEvent.response p] ++ tail)
        = pDone true (pAfter (countTimers es)) := by
      unfold pRun
      rw [List.foldl_append, List.foldl_append]
      have h0 : es.foldl (pStep fqdn true false) pInit = pAfter (countTimers es) := by
        simpa [pRun] using hbase
      rw [h0]
      simp only [List.foldl_cons, List.foldl_nil]
      rw [hstep]
      exact pRun_finalized fqdn _ tail hLf hPf
    rw [this]
    exact ⟨hRf, hCf, hLf, hPf⟩

/-- Witness for C5 at a concrete run: fqdn "Printer.http", a non-matching
response between transmissions, full window of four timer firings; and
the exists branch with a matching response after the first transmission. -/
theorem probe_window_and_exists_witness :
    ((pRun "Printer.http" [PEvent.timer, PEvent.response ⟨[⟨"Other.http"⟩], []⟩,
        PEvent.timer, PEvent.timer, PEvent.timer]).result = some false ∧
      (pRun "Printer.http" [PEvent.timer, PEvent.response ⟨[⟨"Other.http"⟩], []⟩,
        PEvent.timer, PEvent.timer, PEvent.timer]).cbCount = 1) ∧
    ((pRun "Printer.http" ([PEvent.timer] ++ [PEvent.response ⟨[⟨"printer.HTTP"⟩], []⟩]
        ++ [PEvent.timer])).result = some true ∧
      (pRun "Printer.http" ([PEvent.timer] ++ [PEvent.response ⟨[⟨"printer.HTTP"⟩], []⟩]
        ++ [PEvent.timer])).cbCount = 1 ∧
      (pRun "Printer.http" ([PEvent.timer] ++ [PEvent.response ⟨[⟨"printer.HTTP"⟩], []⟩]
        ++ [PEvent.timer])).listening = false ∧
      (pRun "Printer.http" ([PEvent.timer] ++ [PEvent.response ⟨[⟨"printer.HTTP"⟩], []⟩]
        ++ [PEvent.timer])).pending = none) := by
  constructor
  · exact (probe_window_and_exists "Printer.http"
      [PEvent.timer, PEvent.response ⟨[⟨"Other.http"⟩], []⟩,
        PEvent.timer, PEvent.timer, PEvent.timer] [] ⟨[⟨"x"⟩], []⟩
      (noMatchIn_spec _ _ (by decide))).1 (by decide)
  · exact (probe_window_and_exists "Printer.http" [PEvent.timer] [PEvent.timer]
      ⟨[⟨"printer.HTTP"⟩], []⟩
      (noMatchIn_spec _ _ (by decide))).2 (by decide) (by decide) (by decide)

/-- Claim C6: every response packet received strictly before the first
probe transmission is ignored: a trace of responses alone (the first
transmission has not happened) leaves the probe state exactly at its
initial value, so nothing finalizes and "exists" is never produced, even
for packets matching the candidate fqdn. -/
theorem probe_ignores_pre_transmission_responses (fqdn : String) (ps : List Packet) :
    pRun fqdn (ps.map PEvent.response) = pInit ∧
    (pRun fqdn (ps.map PEvent.response)).result = none ∧
    (pRun fqdn (ps.map PEvent.response)).cbCount = 0 := by
  have h : pRun fqdn (ps.map PEvent.response) = pInit := by
    unfold pRun
    induction ps with
    | nil => rfl
    | cons p ps ih =>
        simp only [List.map_cons, List.foldl_cons]
        have hstep : pStep fqdn true false pInit (PEvent.response p) = pInit := by
          simp [pStep, pInit]
        rw [hstep]
        exact ih
  exact ⟨h, by rw [h]; rfl, by rw [h]; rfl⟩

/-! ## The service lifecycle machine

`publish` (lines 18-24) binds `start` with the registry as a prebound
argument: `service.start = start.bind(service, this)`. The conflict
branch (line 76) then calls `service.start(registry, opts)`, so inside
`start` the `opts` parameter receives the *registry object*, whose
`probe` property is `undefined` (falsy). `JSArg` models the two values
that can arrive as `start`'s `opts`. -/

/-- A JavaScript value reaching `start`'s `opts` parameter: either the
options object built by `publish` (line 22) or the registry object
itself (line 76, through the extra prebound argument of the bound
`start`). -/
inductive JSArg where
  | optsObj (probe : Bool)
  | registryObj
deriving DecidableEq, Repr

/-- Reading `opts.probe` as a boolean: a `Registry` instance has no
`probe` property, and `undefined` is falsy. -/
def probeField : JSArg → Bool
  | JSArg.optsObj b => b
  | JSArg.registryObj => false

/-- Constant `REANNOUNCE_MAX_MS` (line 8). -/
def REANNOUNCE_MAX_MS : Nat := 60 * 60 * 1000

/-- Constant `REANNOUNCE_FACTOR` (line 9). -/
def REANNOUNCE_FACTOR : Nat := 3

/-- The mutable fields of a `Service` that registry.js reads or writes:
`name`, `type`, `fqdn`, `_originalName`, `_nameAttempt`, `_activated`,
`_destroyed`, `published`. An unset `_nameAttempt` (undefined) is
modelled as 0; an unset `_originalName` as `none`. -/
structure Svc where
  name : String
  type_ : String
  fqdn : String
  originalName : Option String
  nameAttempt : Nat
  activated : Bool
  destroyed : Bool
  published : Bool
deriving DecidableEq, Repr

/-- State of one service together with its registry bookkeeping and its
observable transport effects: `inRegistry` counts occurrences in
`registry._services`; `probe` holds the current probe run's locals;
`probeCount` counts probe runs launched; `annDelay`/`annScheduled` model
the announce closure's `delay` and its pending timer;
`registeredCount`, `broadcastsSent`, `upCount` count `server.register`
calls, `mdns.respond` broadcasts of the announce loop, and "up"
emissions. -/
structure LState where
  svc : Svc
  inRegistry : Nat
  probe : PCore
  probeCount : Nat
  annDelay : Nat
  annScheduled : Bool
  registeredCount : Nat
  broadcastsSent : Nat
  upCount : Nat
deriving DecidableEq, Repr

/-- Function `broadcast` (lines 164-181): abort if the service is stopped or
destroyed; otherwise respond, fire "up" on the first broadcast while not
yet published (setting `_activated` and `published`), triple the delay,
and reschedule only while the new delay is below the cap and the
service is not destroyed. -/
def broadcastFire (s : LState) : LState :=
  if !s.svc.activated || s.svc.destroyed then { s with annScheduled := false }
  else
    let s1 := { s with broadcastsSent := s.broadcastsSent + 1 }
    let s2 :=
      if !s1.svc.published then
        { s1 with svc := { s1.svc with activated := true, published := true },
                  upCount := s1.upCount + 1 }
      else s1
    let d := s2.annDelay * REANNOUNCE_FACTOR
    { s2 with annDelay := d,
              annScheduled := decide (d < REANNOUNCE_MAX_MS) && !s2.svc.destroyed }

/-- Function `announce` (lines 158-182): set `delay = 1000`, register the record
set with the server, then run the broadcast IIFE immediately. -/
def announceEnter (s : LState) : LState :=
  broadcastFire { s with annDelay := 1000, registeredCount := s.registeredCount + 1 }

/-- Function `start` (lines 37-84) up to the choice of branch: return if already
activated; set `_activated`; on first activation record `_originalName`
and set `_nameAttempt = 1`; push onto `registry._services`; then either
launch a probe (fresh probe locals, line 107-113) or announce directly. -/
def startFn (opts : JSArg) (s : LState) : LState :=
  if s.svc.activated then s
  else
    let s1 := { s with svc := { s.svc with activated := true } }
    let s2 :=
      match s1.svc.originalName with
      | none =>
          { s1 with svc :=
              { s1.svc with originalName := some s1.svc.name, nameAttempt := 1 } }
      | some _ => s1
    let s3 := { s2 with inRegistry := s2.inRegistry + 1 }
    if probeField opts then
      { s3 with probe := pInit, probeCount := s3.probeCount + 1 }
    else
      announceEnter s3

/-- The probe completion callback passed in `start` (lines 53-80): on
"exists", deactivate, splice out of `registry._services` (Nat
subtraction models the `index !== -1` guard), bump `_nameAttempt`,
rename to `originalName + " (" + nameAttempt + ")"`, recompute `fqdn`,
and call the bound `service.start(registry, opts)` — whose `opts`
parameter receives the registry object. On "not exists", announce. -/
def startCb (ex : Bool) (s : LState) : LState :=
  if ex then
    let s1 := { s with svc := { s.svc with activated := false },
                       inRegistry := s.inRegistry - 1 }
    let na := s1.svc.nameAttempt + 1
    let nm := s1.svc.originalName.getD s1.svc.name ++ " (" ++ toString na ++ ")"
    let s2 :=
      { s1 with svc :=
          { s1.svc with nameAttempt := na, name := nm, fqdn := nm ++ "." ++ s1.svc.type_ } }
    startFn JSArg.registryObj s2
  else announceEnter s

/-- Function `done` (lines 143-147) at the lifecycle level: finalize the probe
locals, then run `start`'s completion callback with the result. -/
def probeDoneL (ex : Bool) (s : LState) : LState :=
  startCb ex { s with probe := pDone ex s.probe }

/-- An external event hitting the lifecycle: the probe's pending timer
fires, the announce loop's scheduled timer fires, a response packet
arrives, or `Registry.destroy` runs (lines 31-35: it flags the services
currently in `_services`). -/
inductive LEvent where
  | probeTimer
  | annTimer
  | response (p : Packet)
  | destroy
deriving DecidableEq, Repr

/-- One lifecycle step. -/
def stepL (s : LState) (e : LEvent) : LState :=
  match e with
  | LEvent.destroy =>
      if 0 < s.inRegistry then { s with svc := { s.svc with destroyed := true } } else s
  | LEvent.probeTimer =>
      match s.probe.pending with
      | none => s
      | some Pending.toSend =>
          { s with probe := pSend s.svc.activated s.svc.destroyed s.probe }
      | some Pending.toDone => probeDoneL false s
  | LEvent.annTimer => if s.annScheduled then broadcastFire s else s
  | LEvent.response p =>
      if s.probe.listening && s.probe.sent && packetMatches s.svc.fqdn p then
        probeDoneL true s
      else s

/-- A lifecycle run over an event trace. -/
def runL (s : LState) (es : List LEvent) : LState :=
  es.foldl stepL s

/-- Probe locals before any probe run was launched: no listener, no
pending timer. -/
def pIdle : PCore :=
  { sent := false, retries := 0, pending := none, listening := false,
    result := none, cbCount := 0, queries := 0 }

/-- Modelled from the spec: the `Service` constructor (src/lib/service.js
is not under src/). Per the data model, a fresh service carries its
`name` and `type`, the derived `fqdn = name + "." + type`, unset
`originalName` and `nameAttempt`, and all lifecycle flags false. -/
def newService (name ty : String) : Svc :=
  { name := name, type_ := ty, fqdn := name ++ "." ++ ty,
    originalName := none, nameAttempt := 0,
    activated := false, destroyed := false, published := false }

/-- Lifecycle state of a freshly constructed, not yet started service. -/
def initL (v : Svc) : LState :=
  { svc := v, inRegistry := 0, probe := pIdle, probeCount := 0,
    annDelay := 0, annScheduled := false,
    registeredCount := 0, broadcastsSent := 0, upCount := 0 }

/-- Method `Registry.prototype.publish` (lines 18-24): construct the service and
start it with `{probe: opts.probe !== false}`. -/
def publishL (name ty : String) (probeCfg : Option Bool) : LState :=
  startFn (JSArg.optsObj (probeCfg != some false)) (initL (newService name ty))

/-! ## Concrete scenarios -/

/-- Scenario B of the spec: publish `{name:"Printer", type:"http"}` with
default probing; the first probe transmission goes out; then a response
arrives whose answer record is named "Printer.http". -/
def conflictScenario : LState :=
  runL (publishL "Printer" "http" none)
    [LEvent.probeTimer, LEvent.response ⟨[⟨"Printer.http"⟩], []⟩]

/-- Publish with default probing, let all three probe transmissions go
out, then run `Registry.destroy` while the probe's final 250 ms timer
(scheduled to run `done`) is still pending. -/
def destroyScenarioPre : LState :=
  runL (publishL "Printer" "http" none)
    [LEvent.probeTimer, LEvent.probeTimer, LEvent.probeTimer, LEvent.destroy]

/-- The delays handed to `setTimeout` by successive firings of the
announce loop's `broadcast`, starting from a state whose broadcast timer
is pending, until no further broadcast is scheduled (fuel-bounded). -/
def collectDelays : Nat → LState → List Nat
  | 0, _ => []
  | fuel + 1, s =>
      if s.annScheduled then s.annDelay :: collectDelays fuel (broadcastFire s) else []

/-- Publish with `probe: false`: `start` announces directly, the first
broadcast happens immediately, and the re-broadcast timer is pending. -/
def announceScenario : LState := publishL "Printer" "http" (some false)

/-- The inter-broadcast delays of one announce cycle as the code actually
schedules them. -/
def announceDelays : List Nat := collectDelays 20 announceScenario

/-- The delay sequence as the specification words it (claim C2): "exactly
1000 ms, 3000 ms, 9000 ms, ... each delay three times the previous,
starting at 1000 ms", stopping before the first delay that would reach
3,600,000 ms. Stated from the spec for comparison with
`announceDelays`, which is computed from the code. -/
def specClaimedDelays : List Nat :=
  [1000, 3000, 9000, 27000, 81000, 243000, 729000, 2187000]

/-- Claim C1, behaviour at the failing input: after the probe reports
"exists" for "Printer.http", the service is indeed deactivated-then-
restarted, spliced and re-pushed, renamed to "Printer (2)" with
`nameAttempt` bumped to 2 and `fqdn` recomputed — but the restart does
NOT probe again: `probeCount` stays 1, no probe listener is attached,
and the renamed service goes straight to announcing (record set
registered, broadcast sent, "up" emitted, `published` set). The bound
`service.start(registry, opts)` call hands the registry object to the
`opts` parameter, whose `probe` property is undefined, so the probing
branch is skipped. -/
theorem conflict_rename_announces_without_probe :
    conflictScenario.svc.name = "Printer (2)" ∧
    conflictScenario.svc.fqdn = "Printer (2).http" ∧
    conflictScenario.svc.nameAttempt = 2 ∧
    conflictScenario.svc.activated = true ∧
    conflictScenario.inRegistry = 1 ∧
    conflictScenario.probeCount = 1 ∧
    conflictScenario.probe.listening = false ∧
    conflictScenario.probe.pending = none ∧
    conflictScenario.registeredCount = 1 ∧
    conflictScenario.broadcastsSent = 1 ∧
    conflictScenario.upCount = 1 ∧
    conflictScenario.svc.published = true := by
  decide

/-- Claim C2, counterexample: the first delay between consecutive
scheduled broadcasts is 3000 ms, not 1000 ms; 1000 ms never occurs as an
inter-broadcast delay, so the code's delay list differs from the
spec-claimed one. (`delay` starts at 1000 but is tripled before the
first `setTimeout`, line 176-178.) -/
theorem announce_delays_counterexample :
    announceDelays.head? = some 3000 ∧
    1000 ∉ announceDelays ∧
    announceDelays ≠ specClaimedDelays := by
  decide

/-- Claim C2 as amended: the delays between consecutive scheduled
broadcasts are exactly 3000, 9000, 27000, 81000, 243000, 729000,
2187000 ms (the first broadcast is immediate, and each delay is three
times the previous one, starting at 3000 ms); every scheduled delay is
below 3,600,000 ms, and once the computed delay would meet or exceed
that cap no further broadcast is scheduled: after the seventh
re-broadcast nothing is pending and an extra timer event broadcasts
nothing. -/
theorem announce_delay_sequence_amended :
    announceDelays = [3000, 9000, 27000, 81000, 243000, 729000, 2187000] ∧
    (announceDelays.zip announceDelays.tail).all
      (fun ab => ab.2 == REANNOUNCE_FACTOR * ab.1) = true ∧
    (∀ d ∈ announceDelays, d < REANNOUNCE_MAX_MS) ∧
    (runL announceScenario (List.replicate 7 LEvent.annTimer)).annScheduled = false ∧
    (runL announceScenario (List.replicate 7 LEvent.annTimer)).broadcastsSent = 8 ∧
    (runL announceScenario (List.replicate 8 LEvent.annTimer)).broadcastsSent = 8 := by
  refine ⟨by decide, by decide, ?_, by decide, by decide, by decide⟩
  have hall : announceDelays.all (fun d => decide (d < REANNOUNCE_MAX_MS)) = true := by decide
  intro d hd
  simpa using List.all_eq_true.mp hall d hd

/-- Claim C3, counterexample: `destroy` flags the service while the
probe's final 250 ms timer is pending; when that timer fires, `done`
(which does not re-check the flags) finalizes with "not exists" and
`announce` registers the record set with the transport — even though the
service was destroyed. No query and no broadcast happen, but the
registration does. -/
theorem destroy_pending_timer_still_registers :
    destroyScenarioPre.svc.destroyed = true ∧
    destroyScenarioPre.registeredCount = 0 ∧
    (stepL destroyScenarioPre LEvent.probeTimer).registeredCount = 1 ∧
    (stepL destroyScenarioPre LEvent.probeTimer).probe.cbCount = 1 ∧
    (stepL destroyScenarioPre LEvent.probeTimer).probe.queries = 3 ∧
    (stepL destroyScenarioPre LEvent.probeTimer).broadcastsSent = 0 := by
  decide

theorem broadcastFire_destroyed (s : LState) (h : s.svc.destroyed = true) :
    broadcastFire s = { s with annScheduled := false } := by
  unfold broadcastFire
  simp [h]

theorem stepL_destroyed (s : LState) (e : LEvent) (h : s.svc.destroyed = true) :
    (stepL s e).svc.destroyed = true ∧
    (stepL s e).probe.queries = s.probe.queries ∧
    (stepL s e).broadcastsSent = s.broadcastsSent := by
  cases e with
  | destroy =>
      simp only [stepL]
      split <;> simp [h]
  | probeTimer =>
      simp only [stepL]
      split
      · exact ⟨h, rfl, rfl⟩
      · simp [pSend, h]
      · simp [probeDoneL, startCb, announceEnter, broadcastFire, pDone, h]
  | annTimer =>
      simp only [stepL]
      split
      · simp [broadcastFire, h]
      · exact ⟨h, rfl, rfl⟩
  | response p =>
      simp only [stepL]
      split
      · rcases hon : s.svc.originalName with _ | nm <;>
          simp [probeDoneL, startCb, startFn, probeField, announceEnter,
                broadcastFire, pDone, h, hon]
      · exact ⟨h, rfl, rfl⟩

/-- Claim C3 as amended: once `destroy` has set a tracked service's
destroyed flag, the flag never clears and no later event — pending probe
timer, pending announce timer, or response packet — sends a query or
broadcasts a packet for that service; however (the corrected part) a
probe whose final inter-probe timer was pending at destroy still
finalizes "not exists" and registers the record set with the
transport. -/
theorem destroyed_no_query_no_broadcast (s : LState) (es : List LEvent)
    (h : s.svc.destroyed = true) :
    (runL s es).svc.destroyed = true ∧
    (runL s es).probe.queries = s.probe.queries ∧
    (runL s es).broadcastsSent = s.broadcastsSent := by
  induction es generalizing s with
  | nil => exact ⟨h, rfl, rfl⟩
  | cons e es ih =>
      obtain ⟨h1, h2, h3⟩ := stepL_destroyed s e h
      obtain ⟨g1, g2, g3⟩ := ih (stepL s e) h1
      refine ⟨g1, ?_, ?_⟩
      · rw [runL, List.foldl_cons] at *
        rw [g2, h2]
      · rw [runL, List.foldl_cons] at *
        rw [g3, h3]

/-- Witness for the amended C3 at the destroy scenario: after destroy,
firing the pending probe timer, an announce timer, and delivering a
matching response sends no query and no broadcast. -/
theorem destroyed_no_query_no_broadcast_witness :
    destroyScenarioPre.svc.destroyed = true ∧
    (runL destroyScenarioPre
        [LEvent.probeTimer, LEvent.annTimer,
          LEvent.response ⟨[⟨"Printer.http"⟩], []⟩]).probe.queries
      = destroyScenarioPre.probe.queries ∧
    (runL destroyScenarioPre
        [LEvent.probeTimer, LEvent.annTimer,
          LEvent.response ⟨[⟨"Printer.http"⟩], []⟩]).broadcastsSent
      = destroyScenarioPre.broadcastsSent := by
  refine ⟨by decide, ?_, ?_⟩
  · exact (destroyed_no_query_no_broadcast destroyScenarioPre _ (by decide)).2.1
  · exact (destroyed_no_query_no_broadcast destroyScenarioPre _ (by decide)).2.2

theorem broadcastFire_published (s : LState) (h : s.svc.published = true) :
    (broadcastFire s).upCount = s.upCount ∧ (broadcastFire s).svc.published = true := by
  unfold broadcastFire
  split <;> simp [h]

theorem stepL_published (s : LState) (e : LEvent) (h : s.svc.published = true) :
    (stepL s e).upCount = s.upCount ∧ (stepL s e).svc.published = true := by
  cases e with
  | destroy =>
      simp only [stepL]
      split <;> simp [h]
  | probeTimer =>
      simp only [stepL]
      split
      · exact ⟨rfl, h⟩
      · exact ⟨rfl, h⟩
      · have hb := broadcastFire_published
          { s with probe := pDone false s.probe, annDelay := 1000,
                   registeredCount := s.registeredCount + 1 } (by simpa using h)
        simpa [probeDoneL, startCb, announceEnter] using hb
  | annTimer =>
      simp only [stepL]
      split
      · exact broadcastFire_published s h
      · exact ⟨rfl, h⟩
  | response p =>
      simp only [stepL]
      split
      · rcases hon : s.svc.originalName with _ | nm
        all_goals
          simp [probeDoneL, startCb, startFn, probeField, announceEnter,
                broadcastFire, pDone, h, hon]
        all_goals constructor
        all_goals split
        all_goals rfl
      · exact ⟨rfl, h⟩

theorem runL_published (s : LState) (es : List LEvent) (h : s.svc.published = true) :
    (runL s es).upCount = s.upCount ∧ (runL s es).svc.published = true := by
  induction es generalizing s with
  | nil => exact ⟨rfl, h⟩
  | cons e es ih =>
      obtain ⟨h1, h2⟩ := stepL_published s e h
      obtain ⟨g1, g2⟩ := ih (stepL s e) h2
      have hrw : runL s (e :: es) = runL (stepL s e) es := by
        rw [runL, runL, List.foldl_cons]
      exact ⟨by rw [hrw, g1, h1], by rw [hrw]; exact g2⟩

/-- Claim C7: within one (re)announcement cycle, "up" fires exactly once:
for a service that is activated, not destroyed and not yet published,
entering `announce` completes the first broadcast and emits "up" once,
setting `activated` and `published` true; and from any state already
published, no later event of the cycle (in particular the backoff
broadcasts fired by the announce timer) ever emits "up" again or clears
`published`. -/
theorem up_fires_once_per_cycle (s s' : LState) (es : List LEvent)
    (h1 : s.svc.activated = true) (h2 : s.svc.destroyed = false)
    (h3 : s.svc.published = false) (h4 : s'.svc.published = true) :
    (announceEnter s).upCount = s.upCount + 1 ∧
    (announceEnter s).svc.published = true ∧
    (announceEnter s).svc.activated = true ∧
    (runL s' es).upCount = s'.upCount ∧
    (runL s' es).svc.published = true := by
  refine ⟨?_, ?_, ?_, (runL_published s' es h4).1, (runL_published s' es h4).2⟩ <;>
    simp [announceEnter, broadcastFire, h1, h2, h3]

/-- Witness for C7: a freshly published probing service entering announce
fires "up" once; the already-published announce scenario fires no further
"up" on its next backoff broadcast. -/
theorem up_fires_once_per_cycle_witness :
    (announceEnter (publishL "Printer" "http" none)).upCount
      = (publishL "Printer" "http" none).upCount + 1 ∧
    (runL announceScenario [LEvent.annTimer]).upCount = announceScenario.upCount := by
  have h := up_fires_once_per_cycle (publishL "Printer" "http" none) announceScenario
    [LEvent.annTimer] (by decide) (by decide) (by decide) (by decide)
  exact ⟨h.1, h.2.2.2.1⟩

/-- The lifecycle invariant behind claim C9: `fqdn` always equals the
current `name` joined to `type` by a dot, and a live probe listener
implies `originalName` was recorded by `start`. -/
def svcInv (s : LState) : Prop :=
  s.svc.fqdn = s.svc.name ++ "." ++ s.svc.type_ ∧
  (s.probe.listening = true → s.svc.originalName.isSome = true)

/-- An event detects a name collision when a response matching the
current fqdn reaches a live probe listener after the first
transmission. -/
def detectsCollision (s : LState) (e : LEvent) : Bool :=
  match e with
  | LEvent.response p => s.probe.listening && s.probe.sent && packetMatches s.svc.fqdn p
  | _ => false

theorem broadcastFire_keeps (s : LState) :
    (broadcastFire s).svc.name = s.svc.name ∧
    (broadcastFire s).svc.type_ = s.svc.type_ ∧
    (broadcastFire s).svc.fqdn = s.svc.fqdn ∧
    (broadcastFire s).svc.originalName = s.svc.originalName ∧
    (broadcastFire s).svc.nameAttempt = s.svc.nameAttempt ∧
    (broadcastFire s).probe = s.probe := by
  unfold broadcastFire
  split
  · simp
  · by_cases hp : s.svc.published = false <;> simp [hp]

theorem announceEnter_keeps (s : LState) :
    (announceEnter s).svc.name = s.svc.name ∧
    (announceEnter s).svc.type_ = s.svc.type_ ∧
    (announceEnter s).svc.fqdn = s.svc.fqdn ∧
    (announceEnter s).svc.originalName = s.svc.originalName ∧
    (announceEnter s).svc.nameAttempt = s.svc.nameAttempt ∧
    (announceEnter s).probe = s.probe := by
  simpa using broadcastFire_keeps
    { s with annDelay := 1000, registeredCount := s.registeredCount + 1 }

theorem startCb_true_eval (s : LState) (x : String)
    (hx : s.svc.originalName = some x) :
    startCb true s =
      announceEnter
        { s with
            svc :=
              { s.svc with
                  activated := true,
                  nameAttempt := s.svc.nameAttempt + 1,
                  name := x ++ " (" ++ toString (s.svc.nameAttempt + 1) ++ ")",
                  fqdn := x ++ " (" ++ toString (s.svc.nameAttempt + 1) ++ ")"
                            ++ "." ++ s.svc.type_ },
            inRegistry := s.inRegistry - 1 + 1 } := by
  simp [startCb, startFn, probeField, hx]

theorem stepL_inv (s : LState) (e : LEvent) (h : svcInv s) :
    svcInv (stepL s e) ∧
    (stepL s e).svc.nameAttempt
      = s.svc.nameAttempt + (if detectsCollision s e then 1 else 0) := by
  obtain ⟨hf, ho⟩ := h
  cases e with
  | destroy =>
      simp only [stepL, detectsCollision]
      split <;> exact ⟨⟨hf, ho⟩, rfl⟩
  | probeTimer =>
      simp only [stepL, detectsCollision]
      split
      · exact ⟨⟨hf, ho⟩, rfl⟩
      · refine ⟨⟨hf, ?_⟩, rfl⟩
        intro hl
        apply ho
        revert hl
        simp only [pSend]
        split <;> simp
      · have he : probeDoneL false s
            = announceEnter { s with probe := pDone false s.probe } := rfl
        rw [he]
        obtain ⟨k1, k2, k3, k4, k5, k6⟩ :=
          announceEnter_keeps { s with probe := pDone false s.probe }
        refine ⟨⟨?_, ?_⟩, ?_⟩
        · rw [k3, k1, k2]
          exact hf
        · intro hl
          rw [k6] at hl
          simp [pDone] at hl
        · rw [k5]
          simp
  | annTimer =>
      simp only [stepL, detectsCollision]
      split
      · obtain ⟨k1, k2, k3, k4, k5, k6⟩ := broadcastFire_keeps s
        refine ⟨⟨?_, ?_⟩, ?_⟩
        · rw [k3, k1, k2]
          exact hf
        · intro hl
          rw [k6] at hl
          rw [k4]
          exact ho hl
        · rw [k5]
          simp
      · exact ⟨⟨hf, ho⟩, rfl⟩
  | response p =>
      cases hc : s.probe.listening && s.probe.sent && packetMatches s.svc.fqdn p with
      | false =>
          simp only [stepL, detectsCollision, hc]
          exact ⟨⟨hf, ho⟩, rfl⟩
      | true =>
          have hl : s.probe.listening = true := by
            have hc2 := hc
            simp only [Bool.and_eq_true] at hc2
            exact hc2.1.1
          obtain ⟨x, hx⟩ := Option.isSome_iff_exists.mp (ho hl)
          simp only [stepL, detectsCollision, hc, if_true]
          have he : probeDoneL true s
              = startCb true { s with probe := pDone true s.probe } := rfl
          rw [he, startCb_true_eval { s with probe := pDone true s.probe } x hx]
          obtain ⟨k1, k2, k3, k4, k5, k6⟩ := announceEnter_keeps
            { { s with probe := pDone true s.probe } with
                svc :=
                  { s.svc with
                      activated := true,
                      nameAttempt := s.svc.nameAttempt + 1,
                      name := x ++ " (" ++ toString (s.svc.nameAttempt + 1) ++ ")",
                      fqdn := x ++ " (" ++ toString (s.svc.nameAttempt + 1) ++ ")"
                                ++ "." ++ s.svc.type_ },
                inRegistry := s.inRegistry - 1 + 1 }
          refine ⟨⟨?_, ?_⟩, ?_⟩
          · rw [k3, k1, k2]
          · intro hll
            rw [k6] at hll
            simp [pDone] at hll
          · rw [k5]

/-- Claim C9: `publish` starts `nameAttempt` at exactly 1 and establishes
`fqdn = name + "." + type`; and every lifecycle step preserves that
`fqdn` equals the current `name + "." + type` while changing
`nameAttempt` by exactly the number of collisions the step detects (one
on a matching probe response, zero otherwise) — it never decreases and
never skips. -/
theorem name_attempt_and_fqdn_invariant (name ty : String) (pc : Option Bool)
    (s : LState) (e : LEvent) (h : svcInv s) :
    (publishL name ty pc).svc.nameAttempt = 1 ∧
    svcInv (publishL name ty pc) ∧
    svcInv (stepL s e) ∧
    (stepL s e).svc.nameAttempt
      = s.svc.nameAttempt + (if detectsCollision s e then 1 else 0) := by
  have hpub : (publishL name ty pc).svc.nameAttempt = 1 ∧ svcInv (publishL name ty pc) := by
    cases hb : (pc != some false) <;>
      refine ⟨?_, ?_, ?_⟩ <;>
        simp [publishL, startFn, initL, newService, pIdle, pInit, probeField, hb,
              announceEnter, broadcastFire, svcInv]
  exact ⟨hpub.1, hpub.2, (stepL_inv s e h).1, (stepL_inv s e h).2⟩

/-- Witness for C9: concrete publish of "Printer"/"http", then the state
after the first probe transmission satisfies the invariant, and the
collision response "Printer.http" bumps `nameAttempt` by exactly one. -/
theorem name_attempt_and_fqdn_invariant_witness :
    (publishL "Printer" "http" none).svc.nameAttempt = 1 ∧
    (stepL (runL (publishL "Printer" "http" none) [LEvent.probeTimer])
        (LEvent.response ⟨[⟨"Printer.http"⟩], []⟩)).svc.nameAttempt
      = (runL (publishL "Printer" "http" none) [LEvent.probeTimer]).svc.nameAttempt
        + (if detectsCollision (runL (publishL "Printer" "http" none) [LEvent.probeTimer])
              (LEvent.response ⟨[⟨"Printer.http"⟩], []⟩) then 1 else 0) := by
  have h := name_attempt_and_fqdn_invariant "Printer" "http" none
    (runL (publishL "Printer" "http" none) [LEvent.probeTimer])
    (LEvent.response ⟨[⟨"Printer.http"⟩], []⟩)
    (by constructor <;> decide)
  exact ⟨h.1, h.2.2.2⟩

/-! ## The error-forwarding handler (claim C4)

`start` installs `registry._server.mdns.on('error', function (err) {
service.emit('error', err) })` at lines 47-49. JavaScript `const` is
block-scoped: the `const service = this` of line 52 lives inside the
`if (opts.probe)` block, while the listener closure is created in
`start`'s function body scope. We model strict-mode identifier
resolution along the listener's lexical scope chain. -/

/-- Identifiers bound in registry.js's module scope: the requires (lines
3-6), the constants (lines 8-9), and the function declarations. -/
def moduleScopeIds : List String :=
  ["timers", "dnsEqual", "flatten", "Service", "REANNOUNCE_MAX_MS",
   "REANNOUNCE_FACTOR", "Registry", "start", "stop", "probe", "announce",
   "teardown"]

/-- Identifiers bound in `start`'s function scope (lines 37-84): its two
parameters. The `const service` of line 52 is scoped to the
`if (opts.probe)` block, not to the function body. -/
def startScopeIds : List String := ["registry", "opts"]

/-- The lexical environment chain visible to the `error` listener of
lines 47-49: its own parameter scope, then `start`'s function scope,
then the module scope. The `if (opts.probe)` block scope is not an
ancestor of the listener, which is created before (and outside) that
block. -/
def errorHandlerChain : List (List String) :=
  [["err"], startScopeIds, moduleScopeIds]

/-- Strict-mode identifier resolution: an identifier resolves when some
scope on the chain binds it; otherwise evaluating it throws a
ReferenceError. -/
def resolveId (chain : List (List String)) (x : String) : Bool :=
  chain.any (fun scope => scope.contains x)

/-- Evaluating the listener body `service.emit('error', err)` (line 48):
the emission succeeds only if the identifier `service` resolves in the
listener's scope chain. -/
def forwardError : Except String Unit :=
  if resolveId errorHandlerChain "service" then Except.ok ()
  else Except.error "ReferenceError: service is not defined"

/-- Claim C4, behaviour at the failing input: when the transport emits
"error" for a started service, the installed handler does not emit
"error" on the service: the identifier `service` is bound in no scope
the handler can see — the `const service` of line 52 is block-scoped to
the probing branch and invisible to the closure created at line 47 — so
the handler throws a ReferenceError instead, on the probing and
non-probing paths alike (the chain is fixed at closure creation and does
not depend on which branch ran). -/
theorem error_forwarding_throws :
    resolveId errorHandlerChain "service" = false ∧
    forwardError = Except.error "ReferenceError: service is not defined" := by
  exact ⟨rfl, rfl⟩

/-! ## Teardown (claims C8, C10) -/

/-- A resource record as `teardown` handles it: produced by the
service's `_records()` and mutated by forcing `ttl` to 0 for the
goodbye message (lines 200-203). -/
structure TRecord where
  rname : String
  ttl : Nat
deriving DecidableEq, Repr

/-- What `teardown` and `stop` read of a service: its identity (the JS
object reference, used by `indexOf`), its current record set, and the
`_activated`/`published` flags. -/
structure TService where
  id : Nat
  records : List TRecord
  activated : Bool
  published : Bool
deriving DecidableEq, Repr

/-- Force every record's TTL to 0 (lines 201-203). -/
def setTTLZero (rs : List TRecord) : List TRecord :=
  rs.map (fun r => { r with ttl := 0 })

/-- The observable outcome of `teardown` (lines 191-218): the included
(activated) services with their final flags, the per-service goodbye
record groups, what was unregistered from the server's cache, the
broadcasts sent, how many times the caller's callback ran, and the value
forwarded to it (`none` models the argument-less `cb()` of the
empty-record case, `some r` the forwarded respond result). -/
structure TOut where
  included : List TService
  goodbyeGroups : List (List TRecord)
  unregistered : Option (List TRecord)
  broadcasts : List (List TRecord)
  cbCalls : Nat
  cbArg : Option Nat
deriving DecidableEq, Repr

/-- Function `teardown(server, services, cb)` (lines 191-218) with the respond
completion result modelled as `bres`: filter to the activated services,
mark each inactive and collect its records with TTL 0, flatten one level
into a single combined set; if that set is empty call the callback at
once and touch nothing else; otherwise unregister the set, broadcast it
once, clear `published` on every included service, and forward the
respond result to the callback. -/
def teardownF (services : List TService) (bres : Nat) : TOut :=
  let included := services.filter (fun s => s.activated)
  let groups := included.map (fun s => setTTLZero s.records)
  let records := groups.flatten
  if records = [] then
    { included := included.map (fun s => { s with activated := false }),
      goodbyeGroups := groups, unregistered := none, broadcasts := [],
      cbCalls := 1, cbArg := none }
  else
    { included := included.map
        (fun s => { s with activated := false, published := false }),
      goodbyeGroups := groups, unregistered := some records,
      broadcasts := [records], cbCalls := 1, cbArg := some bres }

/-- Method `Registry.prototype.unpublishAll` (lines 26-29): tear down every
tracked service in one batch and clear the active collection. -/
def unpublishAllF (reg : List TService) (bres : Nat) : TOut × List TService :=
  (teardownF reg bres, [])

/-- Splice the first occurrence of the service (by object identity) out
of `registry._services` (lines 91-92: `indexOf` then `splice`; a missing
service leaves the collection unchanged). -/
def removeFirstById : List TService → Nat → List TService
  | [], _ => []
  | s :: rest, i => if s.id = i then rest else s :: removeFirstById rest i

/-- Outcome of `stop` (lines 86-93): the final active collection and the
teardown outcome, `none` when teardown was never entered. -/
structure StopOut where
  reg : List TService
  out : Option TOut
deriving DecidableEq, Repr

/-- How many times `stop`'s callback was invoked. -/
def stopCbCalls (so : StopOut) : Nat :=
  match so.out with
  | none => 0
  | some o => o.cbCalls

/-- Function `stop(registry, cb)` with `this = s` (lines 86-93): return
immediately if the service is not activated; otherwise tear it down and
splice it out of the active collection. -/
def stopF (reg : List TService) (s : TService) (bres : Nat) : StopOut :=
  if s.activated = false then { reg := reg, out := none }
  else { reg := removeFirstById reg s.id, out := some (teardownF [s] bres) }

/-- Claim C8: for a batch containing at least one activated service with
at least one record, teardown sets TTL = 0 on every record of every
included service's goodbye group, marks every included service inactive
and clears its `published` flag, combines all goodbye records into one
single set which is unregistered and sent as exactly one broadcast, and
invokes the caller's callback exactly once with the broadcast's result;
`unpublishAll` moreover leaves the registry's active collection empty,
so every included service is removed from it. -/
theorem teardown_goodbye_batch (services : List TService) (bres : Nat)
    (h : (services.filter (fun s => s.activated)).any
          (fun s => !s.records.isEmpty) = true) :
    (∀ g ∈ (teardownF services bres).goodbyeGroups, ∀ r ∈ g, r.ttl = 0) ∧
    (∀ s ∈ (teardownF services bres).included,
        s.activated = false ∧ s.published = false) ∧
    (teardownF services bres).broadcasts
      = [(teardownF services bres).goodbyeGroups.flatten] ∧
    (teardownF services bres).unregistered
      = some (teardownF services bres).goodbyeGroups.flatten ∧
    (teardownF services bres).cbCalls = 1 ∧
    (teardownF services bres).cbArg = some bres ∧
    (unpublishAllF services bres).2 = [] := by
  have hne : ((services.filter (fun s => s.activated)).map
      (fun s => setTTLZero s.records)).flatten ≠ [] := by
    obtain ⟨s, hs, hr⟩ := List.any_eq_true.mp h
    intro hj
    have hall := List.flatten_eq_nil_iff.mp hj (setTTLZero s.records)
      (List.mem_map_of_mem _ hs)
    have : s.records = [] := by
      simpa [setTTLZero, List.map_eq_nil_iff] using hall
    simp [this] at hr
  simp only [teardownF, unpublishAllF]
  rw [if_neg hne]
  refine ⟨?_, ?_, rfl, rfl, rfl, rfl, trivial⟩
  · intro g hg r hr
    obtain ⟨s, _, hgs⟩ := List.mem_map.mp hg
    rw [← hgs] at hr
    obtain ⟨r0, _, hr0⟩ := List.mem_map.mp hr
    rw [← hr0]
  · intro s hs
    obtain ⟨s0, _, hs0⟩ := List.mem_map.mp hs
    rw [← hs0]
    exact ⟨rfl, rfl⟩

/-- Witness for C8 at Scenario C: two active services, one record each;
both goodbye groups have TTL 0, the combined set goes out in one
broadcast, both services end inactive and unpublished, the callback
runs once with the broadcast result, and the collection is cleared. -/
theorem teardown_goodbye_batch_witness :
    (∀ g ∈ (teardownF
        [⟨1, [⟨"A.http", 120⟩], true, true⟩,
         ⟨2, [⟨"B.http", 120⟩], true, true⟩] 7).goodbyeGroups,
      ∀ r ∈ g, r.ttl = 0) ∧
    (teardownF
        [⟨1, [⟨"A.http", 120⟩], true, true⟩,
         ⟨2, [⟨"B.http", 120⟩], true, true⟩] 7).broadcasts
      = [[⟨"A.http", 0⟩, ⟨"B.http", 0⟩]] ∧
    (teardownF
        [⟨1, [⟨"A.http", 120⟩], true, true⟩,
         ⟨2, [⟨"B.http", 120⟩], true, true⟩] 7).cbCalls = 1 ∧
    (unpublishAllF
        [⟨1, [⟨"A.http", 120⟩], true, true⟩,
         ⟨2, [⟨"B.http", 120⟩], true, true⟩] 7).2 = [] := by
  have h := teardown_goodbye_batch
    [⟨1, [⟨"A.http", 120⟩], true, true⟩, ⟨2, [⟨"B.http", 120⟩], true, true⟩]
    7 (by decide)
  exact ⟨h.1, by decide, h.2.2.2.2.1, h.2.2.2.2.2.2⟩

/-- Claim C10: `stop` on a service whose activated flag is false is a
no-op: the active collection is returned unchanged, teardown never runs
(so nothing is unregistered or broadcast), and the caller's callback is
never invoked. -/
theorem stop_inactive_noop (reg : List TService) (s : TService) (bres : Nat)
    (h : s.activated = false) :
    (stopF reg s bres).reg = reg ∧
    (stopF reg s bres).out = none ∧
    stopCbCalls (stopF reg s bres) = 0 := by
  simp [stopF, stopCbCalls, h]

/-- Witness for C10: stopping an inactive service in a two-service
collection changes nothing and calls no callback. -/
theorem stop_inactive_noop_witness :
    (stopF [⟨1, [⟨"A.http", 120⟩], true, true⟩]
        ⟨2, [⟨"B.http", 120⟩], false, false⟩ 7).reg
      = [⟨1, [⟨"A.http", 120⟩], true, true⟩] ∧
    stopCbCalls (stopF [⟨1, [⟨"A.http", 120⟩], true, true⟩]
        ⟨2, [⟨"B.http", 120⟩], false, false⟩ 7) = 0 := by
  have h := stop_inactive_noop [⟨1, [⟨"A.http", 120⟩], true, true⟩]
    ⟨2, [⟨"B.http", 120⟩], false, false⟩ 7 (by decide)
  exact ⟨h.1, h.2.2⟩

end Registry
